import Mathlib

/-!
# Verification of the escpos-rs core model

Shallow embedding of the escpos-rs printer library: the printer capability
table (`PrinterModel`, `PrinterProfile`), the `Justification` value type, the
template/substitution engine and the command encoder, together with theorems
settling the specification claims.

Embedded from `src/printer/printer_model.rs` and
`src/instruction/justification.rs`. The template engine and command encoder
are not present in the provided sources, so they are modelled from the
specification (sections 4.1 and 4.2); their definitions say so in their doc
comments.
-/

set_option autoImplicit false

namespace Escpos

/-- Device-selectable character sets. The source uses the variants
`Font::FontA` and `Font::FontB` (module `command`, declaration not in the
provided sources; variants taken from their uses in
`printer_model.rs`). -/
inductive Font where
  | FontA
  | FontB
deriving DecidableEq

/-- Alignment for text printing, from `src/instruction/justification.rs`:
an enumeration with the three variants `Left`, `Center`, `Right`. -/
inductive Justification where
  | Left
  | Center
  | Right
deriving DecidableEq

/-- The Rust type derives `Clone`; the derived clone of an enum value is the
value itself (a copy equal to the original). -/
def Justification.clone (j : Justification) : Justification := j

/-- Serde serialization of a unit-variant enum with no attributes: the
variant is serialized as its own name (serde's data model for the derived
`Serialize` impl on `Justification`). -/
def Justification.serialize : Justification → String
  | .Left => "Left"
  | .Center => "Center"
  | .Right => "Right"

/-- Serde deserialization of a unit-variant enum: the derived `Deserialize`
impl accepts exactly the variant names, and rejects anything else. -/
def Justification.deserialize (s : String) : Option Justification :=
  if s = "Left" then some .Left
  else if s = "Center" then some .Center
  else if s = "Right" then some .Right
  else none

/-- Transport descriptor. The `Usb` variant with fields `vendor_id`,
`product_id`, `endpoint`, `timeout` is taken from its construction in
`printer_model.rs`; the timeout is modelled in whole seconds
(`Duration::from_secs`). Modelled from the spec: the descriptor is opaque
to the core and may describe transports other than USB, represented here by
the abstract `Other` variant. -/
inductive PrinterConnectionData where
  | Usb (vendor_id : Nat) (product_id : Nat) (endpoint : Option Nat) (timeout_secs : Nat)
  | Other (descriptor : String)
deriving DecidableEq

/-- Static capability description of one physical model, fields as used in
`printer_model.rs`: connection data, a font → printable-columns mapping
(modelled as an association list, the order of the source literals), and the
printable width in dots. -/
structure PrinterProfile where
  printer_connection_data : PrinterConnectionData
  columns_per_font : List (Font × Nat)
  width : Nat
deriving DecidableEq

/-- Printers known to the library, from `printer_model.rs`. -/
inductive PrinterModel where
  | ZKTeco
  | TMT20
deriving DecidableEq

/-- `PrinterModel::vp_id`: vendor id, product id and endpoint of the model. -/
def PrinterModel.vp_id : PrinterModel → Nat × Nat × Option Nat
  | .ZKTeco => (0x6868, 0x0200, some 0x02)
  | .TMT20 => (0x04b8, 0x0e15, some 0x01)

/-- `PrinterModel::usb_profile`: the details to connect to a printer model
through usb. An exhaustive match, returning a profile directly (no `Result`
or `Option` in the source signature). -/
def PrinterModel.usb_profile (m : PrinterModel) : PrinterProfile :=
  let (vendor_id, product_id, endpoint) := m.vp_id
  match m with
  | .ZKTeco =>
    { printer_connection_data := .Usb vendor_id product_id endpoint 2
      columns_per_font := [(Font.FontA, 32), (Font.FontB, 42)]
      width := 384 }
  | .TMT20 =>
    { printer_connection_data := .Usb vendor_id product_id endpoint 2
      columns_per_font := [(Font.FontA, 48)]
      width := 576 }

/-- The concrete profile `usb_profile` yields for `ZKTeco`. -/
def zkTecoUsbProfile : PrinterProfile :=
  { printer_connection_data := .Usb 0x6868 0x0200 (some 0x02) 2
    columns_per_font := [(Font.FontA, 32), (Font.FontB, 42)]
    width := 384 }

/-- The concrete profile `usb_profile` yields for `TMT20`. -/
def tmt20UsbProfile : PrinterProfile :=
  { printer_connection_data := .Usb 0x04b8 0x0e15 (some 0x01) 2
    columns_per_font := [(Font.FontA, 48)]
    width := 576 }

/-- Error taxonomy of the core (spec section 7): missing substitution,
unsupported font, image too wide, opaque transport failure. -/
inductive Error where
  | MissingSubstitution (token : String)
  | UnsupportedFont (font : Font)
  | ImageTooWide (actual : Nat) (max : Nat)
  | TransportError
deriving DecidableEq

/-- Modelled from the spec: a template is tokenized once at
instruction-build time into alternating literal/placeholder runs
(section 4.1); the template engine (`Instruction`) is not in the provided
sources. A segment is either literal text or a placeholder token. -/
inductive Segment where
  | lit (s : String)
  | ph (token : String)
deriving DecidableEq

/-- Modelled from the spec: an `Instruction` holds the tokenized template,
a font, a justification and the set of declared token identifiers
(section 3); the type is not in the provided sources. -/
structure Instruction where
  template : List Segment
  font : Font
  justification : Justification
  declared_tokens : List String
deriving DecidableEq

/-- Modelled from the spec: `PrintData` is a mapping from token identifier
to replacement string (section 3); the type is not in the provided
sources. -/
structure PrintData where
  substitutions : List (String × String)
deriving DecidableEq

/-- Modelled from the spec: resolution of a tokenized template against
substitution data (section 4.1). Literal runs pass through verbatim; a
placeholder found in the data is replaced by its value verbatim; a
placeholder with no entry fails the whole resolution with
`MissingSubstitution`, producing no output at all. -/
def resolveSegs : List Segment → List (String × String) → Except Error String
  | [], _ => .ok ""
  | .lit s :: rest, subs => (resolveSegs rest subs).map (fun r => s ++ r)
  | .ph t :: rest, subs =>
    match subs.lookup t with
    | some v => (resolveSegs rest subs).map (fun r => v ++ r)
    | none => .error (.MissingSubstitution t)

/-- Modelled from the spec: `resolve(instruction, print_data)`
(section 4.1). -/
def resolve (instr : Instruction) (pd : PrintData) : Except Error String :=
  resolveSegs instr.template pd.substitutions

/-- The leftmost placeholder of the template that has no entry in the
substitution data, if any: the token a failing resolution reports. -/
def firstMissing : List Segment → List (String × String) → Option String
  | [], _ => none
  | .lit _ :: rest, subs => firstMissing rest subs
  | .ph t :: rest, subs =>
    match subs.lookup t with
    | some _ => firstMissing rest subs
    | none => some t

/-- ESC/POS code of a font for the font-select control sequence. -/
def fontCode : Font → Nat
  | .FontA => 0
  | .FontB => 1

/-- Modelled from the spec: the font-select control sequence emitted first
by the encoder (section 4.2), as ESC M n. -/
def fontSelect (f : Font) : List Nat := [0x1b, 0x4d, fontCode f]

/-- ESC/POS code of a justification for the alignment control sequence. -/
def justificationCode : Justification → Nat
  | .Left => 0
  | .Center => 1
  | .Right => 2

/-- Modelled from the spec: the justification-select control sequence
emitted after the font selection (section 4.2), as ESC a n. -/
def justificationSelect (j : Justification) : List Nat :=
  [0x1b, 0x61, justificationCode j]

/-- Hard-break a word into chunks of at most `n` characters; the first
argument is fuel bounding the recursion (the caller passes the word
length). -/
def hardChunks : Nat → Nat → List Char → List (List Char)
  | 0, _, cs => [cs]
  | _, _, [] => []
  | fuel + 1, n, c :: cs => (c :: cs).take n :: hardChunks fuel n ((c :: cs).drop n)

/-- Modelled from the spec: a single word longer than the column count is
hard-broken mid-word into column-sized pieces (section 4.2). -/
def hardBreakWord (n : Nat) (w : List Char) : List (List Char) :=
  if n = 0 then [w] else hardChunks w.length n w

/-- Modelled from the spec: greedy wrapping of a word list into lines of at
most `n` columns, breaking at whitespace boundaries when possible and
falling back to a hard break mid-word only when a single word exceeds the
column count (section 4.2). The second argument is the line being built. -/
def wrapWords (n : Nat) : List String → String → List String
  | [], cur => if cur = "" then [] else [cur]
  | w :: ws, cur =>
    if cur = "" then
      if w.length ≤ n then wrapWords n ws w
      else
        let pieces := (hardBreakWord n w.data).map List.asString
        pieces.dropLast ++ wrapWords n ws (pieces.getLastD "")
    else
      if cur.length + 1 + w.length ≤ n then wrapWords n ws (cur ++ " " ++ w)
      else if w.length ≤ n then cur :: wrapWords n ws w
      else
        let pieces := (hardBreakWord n w.data).map List.asString
        cur :: (pieces.dropLast ++ wrapWords n ws (pieces.getLastD ""))

/-- Wrap one source line (no explicit newlines) to `n` columns. -/
def wrapLine (n : Nat) (line : String) : List String :=
  match wrapWords n (line.splitOn " ") "" with
  | [] => [""]
  | ls => ls

/-- Modelled from the spec: column-aware wrapping of the whole text;
explicit newlines in the source text always force a line break
(section 4.2). -/
def wrapText (n : Nat) (text : String) : List String :=
  ((text.splitOn "\n").map (wrapLine n)).flatten

/-- Modelled from the spec: `encode(text, font, justification, profile)`
(section 4.2); the command encoder is not in the provided sources. Looks up
the font's column count (absent entry fails with `UnsupportedFont`), then
emits the font-select sequence, the justification-select sequence, the
line-wrapped text body and a trailing line feed. -/
def encode (text : String) (font : Font) (j : Justification)
    (profile : PrinterProfile) : Except Error (List Nat) :=
  match profile.columns_per_font.lookup font with
  | none => .error (.UnsupportedFont font)
  | some cols =>
    .ok (fontSelect font ++ justificationSelect j ++
      (String.intercalate "\n" (wrapText cols text)).data.map Char.toNat ++ [0x0a])

/-- The spec's concrete example instruction: template "Hello, %name%!" with
the single declared token %name%. -/
def helloInstruction : Instruction :=
  { template := [.lit "Hello, ", .ph "%name%", .lit "!"]
    font := .FontA
    justification := .Center
    declared_tokens := ["%name%"] }

/-- Print data with no substitutions at all (in particular no %name%
entry). -/
def emptyPrintData : PrintData := { substitutions := [] }

theorem resolveSegs_eq_error_of_firstMissing (segs : List Segment)
    (subs : List (String × String)) (t : String)
    (h : firstMissing segs subs = some t) :
    resolveSegs segs subs = .error (.MissingSubstitution t) ∧
      Segment.ph t ∈ segs ∧ subs.lookup t = none := by
  induction segs with
  | nil => simp [firstMissing] at h
  | cons seg rest ih =>
    cases seg with
    | lit s =>
      obtain ⟨h1, h2, h3⟩ := ih h
      exact ⟨by simp [resolveSegs, h1, Except.map], List.mem_cons_of_mem _ h2, h3⟩
    | ph u =>
      cases hl : subs.lookup u with
      | some v =>
        have h' : firstMissing rest subs = some t := by
          simpa [firstMissing, hl] using h
        obtain ⟨h1, h2, h3⟩ := ih h'
        exact ⟨by simp [resolveSegs, hl, h1, Except.map],
          List.mem_cons_of_mem _ h2, h3⟩
      | none =>
        have ht : u = t := by simpa [firstMissing, hl] using h
        subst ht
        exact ⟨by simp [resolveSegs, hl], List.mem_cons_self _ _, hl⟩

theorem firstMissing_isSome_of_missing (segs : List Segment)
    (subs : List (String × String)) (t : String)
    (hmem : Segment.ph t ∈ segs) (hnone : subs.lookup t = none) :
    ∃ u, firstMissing segs subs = some u := by
  induction segs with
  | nil => simp at hmem
  | cons seg rest ih =>
    cases seg with
    | lit s =>
      have hr : Segment.ph t ∈ rest := by
        rcases List.mem_cons.mp hmem with h | h
        · cases h
        · exact h
      exact ih hr
    | ph u =>
      cases hl : subs.lookup u with
      | none => exact ⟨u, by simp [firstMissing, hl]⟩
      | some v =>
        have hr : Segment.ph t ∈ rest := by
          rcases List.mem_cons.mp hmem with h | h
          · cases h
            rw [hnone] at hl
            cases hl
          · exact h
        obtain ⟨w, hw⟩ := ih hr
        exact ⟨w, by simp [firstMissing, hl, hw]⟩

/-- C1: `PrinterModel::usb_profile` totally returns a `PrinterProfile` for
every variant: it is an exhaustive static lookup mapping each of the two
variants to a concrete capability profile, with no fallible path (the
embedded function's type wraps nothing in `Except` or `Option`). -/
theorem usb_profile_total_static_lookup (m : PrinterModel) :
    m.usb_profile = zkTecoUsbProfile ∨ m.usb_profile = tmt20UsbProfile := by
  cases m
  · exact Or.inl rfl
  · exact Or.inr rfl

/-- C2: if a placeholder present in an instruction's template has no entry
in the print data's substitutions, `resolve` fails with a
`MissingSubstitution` error naming a genuinely missing token, and returns
only that error (no partial output). -/
theorem resolve_missing_substitution_fails (instr : Instruction)
    (pd : PrintData) (t : String) (hmem : Segment.ph t ∈ instr.template)
    (hnone : pd.substitutions.lookup t = none) :
    ∃ u, resolve instr pd = Except.error (Error.MissingSubstitution u) ∧
      Segment.ph u ∈ instr.template ∧ pd.substitutions.lookup u = none := by
  obtain ⟨u, hu⟩ := firstMissing_isSome_of_missing _ _ t hmem hnone
  obtain ⟨h1, h2, h3⟩ := resolveSegs_eq_error_of_firstMissing _ _ u hu
  exact ⟨u, h1, h2, h3⟩

/-- Witness for C2 at the spec's concrete example: the template
"Hello, %name%!" with no %name% entry resolves to exactly
`MissingSubstitution "%name%"`. -/
theorem resolve_missing_substitution_fails_witness :
    (Segment.ph "%name%" ∈ helloInstruction.template ∧
      emptyPrintData.substitutions.lookup "%name%" = none) ∧
    (∃ u, resolve helloInstruction emptyPrintData =
        Except.error (Error.MissingSubstitution u) ∧
      Segment.ph u ∈ helloInstruction.template ∧
      emptyPrintData.substitutions.lookup u = none) ∧
    resolve helloInstruction emptyPrintData =
      Except.error (Error.MissingSubstitution "%name%") :=
  ⟨⟨by decide, rfl⟩,
    resolve_missing_substitution_fails helloInstruction emptyPrintData
      "%name%" (by decide) rfl,
    rfl⟩

/-- C3: `encode` is a pure, deterministic function of its four inputs: two
calls with identical text, font, justification and profile yield
byte-identical output. -/
theorem encode_deterministic (t₁ t₂ : String) (f₁ f₂ : Font)
    (j₁ j₂ : Justification) (p₁ p₂ : PrinterProfile)
    (ht : t₁ = t₂) (hf : f₁ = f₂) (hj : j₁ = j₂) (hp : p₁ = p₂) :
    encode t₁ f₁ j₁ p₁ = encode t₂ f₂ j₂ p₂ := by
  subst ht
  subst hf
  subst hj
  subst hp
  rfl

/-- Witness for C3 at a concrete input, which moreover evaluates to a
successful encoding. -/
theorem encode_deterministic_witness :
    ("Hello, Carlos!" = "Hello, Carlos!" ∧ Font.FontA = Font.FontA ∧
      Justification.Center = Justification.Center ∧
      zkTecoUsbProfile = zkTecoUsbProfile) ∧
    encode "Hello, Carlos!" Font.FontA Justification.Center zkTecoUsbProfile =
      encode "Hello, Carlos!" Font.FontA Justification.Center zkTecoUsbProfile ∧
    (encode "Hello, Carlos!" Font.FontA Justification.Center
      zkTecoUsbProfile).toOption.isSome = true :=
  ⟨⟨rfl, rfl, rfl, rfl⟩,
    encode_deterministic _ _ _ _ _ _ _ _ rfl rfl rfl rfl,
    by decide⟩

/-- C4: the USB connection data inside each model's profile agrees with
`vp_id`: vendor id, product id and endpoint are exactly the three
components of the tuple `vp_id` returns for the same variant. -/
theorem usb_profile_agrees_with_vp_id (m : PrinterModel) :
    (m.usb_profile).printer_connection_data =
      PrinterConnectionData.Usb (m.vp_id).1 (m.vp_id).2.1 (m.vp_id).2.2 2 := by
  cases m <;> rfl

/-- C5: every profile in the static table satisfies the data-model
invariant: all column counts are positive, the font keys are unique, and
the width is positive. -/
theorem usb_profile_data_model_invariant (m : PrinterModel) :
    (∀ e ∈ (m.usb_profile).columns_per_font, 0 < e.2) ∧
    ((m.usb_profile).columns_per_font.map Prod.fst).Nodup ∧
    0 < (m.usb_profile).width := by
  cases m <;> exact ⟨by decide, by decide, by decide⟩

/-- C6: `Justification` is an enumeration with exactly the three variants
Left, Center and Right (every value is one of them, and they are pairwise
distinct), and its derived clone returns a value equal to the original. -/
theorem justification_exactly_three_variants :
    (∀ j : Justification, j = .Left ∨ j = .Center ∨ j = .Right) ∧
    (Justification.Left ≠ .Center ∧ Justification.Left ≠ .Right ∧
      Justification.Center ≠ .Right) ∧
    (∀ j : Justification, j.clone = j) := by
  refine ⟨fun j => ?_, ⟨by decide, by decide, by decide⟩, fun j => rfl⟩
  cases j
  · exact Or.inl rfl
  · exact Or.inr (Or.inl rfl)
  · exact Or.inr (Or.inr rfl)

/-- C7: serialization round-trip for `Justification`: deserializing the
serialization of any value yields that value back. -/
theorem justification_serde_roundtrip (j : Justification) :
    Justification.deserialize (Justification.serialize j) = some j := by
  cases j <;> rfl

/-- C8: every profile in the static table carries a `Usb` connection
descriptor whose endpoint is `some _` and whose timeout is exactly 2
seconds. -/
theorem usb_profile_connection_shape (m : PrinterModel) :
    ∃ v p e, (m.usb_profile).printer_connection_data =
      PrinterConnectionData.Usb v p (some e) 2 := by
  cases m
  · exact ⟨0x6868, 0x0200, 0x02, rfl⟩
  · exact ⟨0x04b8, 0x0e15, 0x01, rfl⟩

/-- C9: the exact content of the capability table: ZKTeco maps FontA to 32
and FontB to 42 columns with width 384; TMT20 has the single entry FontA to
48 with width 576 and no FontB entry. -/
theorem usb_profile_capability_table :
    PrinterModel.ZKTeco.usb_profile.columns_per_font.lookup Font.FontA = some 32 ∧
    PrinterModel.ZKTeco.usb_profile.columns_per_font.lookup Font.FontB = some 42 ∧
    PrinterModel.ZKTeco.usb_profile.columns_per_font.length = 2 ∧
    PrinterModel.ZKTeco.usb_profile.width = 384 ∧
    PrinterModel.TMT20.usb_profile.columns_per_font = [(Font.FontA, 48)] ∧
    PrinterModel.TMT20.usb_profile.columns_per_font.lookup Font.FontB = none ∧
    PrinterModel.TMT20.usb_profile.width = 576 := by
  exact ⟨by decide, by decide, rfl, rfl, rfl, by decide, rfl⟩

/-- C10: the two printer models have the hardware identities the source
lists, and the (vendor id, product id) pairs of the two variants are
distinct, so no two known models share a USB identity. -/
theorem vp_id_distinct_usb_identities :
    PrinterModel.ZKTeco.vp_id = (0x6868, 0x0200, some 0x02) ∧
    PrinterModel.TMT20.vp_id = (0x04b8, 0x0e15, some 0x01) ∧
    ((PrinterModel.ZKTeco.vp_id).1, (PrinterModel.ZKTeco.vp_id).2.1) ≠
      ((PrinterModel.TMT20.vp_id).1, (PrinterModel.TMT20.vp_id).2.1) :=
  ⟨rfl, rfl, by decide⟩

end Escpos
